import Mathlib

/-!
Shallow embedding of the message-dispatch core of the `sms-gateway` server.

The third-party HTTP handler (`internal/sms-gateway/handlers/messages/3rdparty.go`)
is embedded directly from its source: `post` (enqueue pipeline), `get`
(state query pipeline) and `postInboxExport` (inbox export pipeline).
The service layer it calls (`messages.Service`, `devices.Service`,
`slices.Random`) is not part of the available sources; those collaborators
are modelled from the specification (§4.1–§4.5), each with a doc comment
saying so.
-/

namespace SmsGateway

/-- Lifecycle state of a message (spec §3/§4.2, `models.ProcessingState`). -/
inductive ProcessingState
  | Pending
  | Processed
  | Sent
  | Delivered
  | Failed
deriving DecidableEq, Repr

/-- Terminal states of the lifecycle: `Delivered` and `Failed` (spec §4.2). -/
def ProcessingState.isTerminal : ProcessingState → Bool
  | .Delivered => true
  | .Failed => true
  | _ => false

/-- A registered device: identifier plus owning account (spec §3 Device). -/
structure Device where
  id : String
  ownerAccountId : String
deriving DecidableEq, Repr

/-- A persisted message record in the Message Store (spec §3 Message). -/
structure MessageRecord where
  id : String
  ownerAccountId : String
  assignedDeviceId : String
  state : ProcessingState
  createdAt : Nat
  updatedAt : Nat
deriving DecidableEq, Repr

/-- The enqueue request body (`smsgateway.Message`): optional client-supplied
id, message text and recipient phone numbers. -/
structure MessageRequest where
  id : Option String
  message : String
  phoneNumbers : List String
deriving DecidableEq, Repr

/-- The state snapshot returned to callers (`smsgateway.MessageState`):
id, lifecycle state and timestamps — not the full payload. -/
structure MessageState where
  id : String
  state : ProcessingState
  createdAt : Nat
  updatedAt : Nat
deriving DecidableEq, Repr

/-- Closed error taxonomy of the core (spec §7, §9: a closed tagged-variant
error type, one case per taxonomy entry). -/
inductive CoreError
  | ValidationError (detail : String)
  | MessageAlreadyExists
  | NoDeviceAvailable
  | MessageNotFound
  | InvalidDevice
  | InvalidTransition
  | InternalFailure
deriving DecidableEq, Repr

/-- The Message Store: the durable record list, newest first. -/
abbrev MessageStore := List MessageRecord

/-- Lookup of a message by id scoped to an owning account (spec §4.4:
reads are scoped strictly to the account). -/
def findMessage (store : MessageStore) (accountId msgId : String) :
    Option MessageRecord :=
  store.find? (fun m => m.ownerAccountId == accountId && m.id == msgId)

/-- Modelled from the spec: recipient-format check performed by the missing
validation code of `modules/messages` — a phone number must be in
international format (`+` followed by 7–15 digits). -/
def isValidPhone (p : String) : Bool :=
  match p.toList with
  | [] => false
  | c :: rest =>
    c == '+' && rest.all Char.isDigit
      && decide (7 ≤ rest.length) && decide (rest.length ≤ 15)

/-- Modelled from the spec: structural payload checks (spec §4.3 "not
structural checks" — these are never skipped): a non-empty message body and
at least one recipient. -/
def structuralOk (req : MessageRequest) : Bool :=
  !req.message.toList.isEmpty && !req.phoneNumbers.isEmpty

/-- Modelled from the spec: payload validation of the missing
`modules/messages` service (spec §4.3, §6 Validation Service). Structural
checks always apply; recipient-format checks apply unless
`skipPhoneValidation` is set. Failures are `ValidationError`. -/
def validate (req : MessageRequest) (skipPhoneValidation : Bool) :
    Except CoreError Unit :=
  if !structuralOk req then
    .error (.ValidationError "invalid payload structure")
  else if !skipPhoneValidation && !(req.phoneNumbers.all isValidPhone) then
    .error (.ValidationError "invalid phone number")
  else
    .ok ()

/-- Enqueue options (`messages.EnqueueOptions` in the handler call). -/
structure EnqueueOptions where
  skipPhoneValidation : Bool
deriving DecidableEq, Repr

/-- Modelled from the spec: id resolution of the missing Enqueue Coordinator
(spec §4.3 step 2): an absent id is replaced by the generated one; a present
id that already exists under the same account is a `MessageAlreadyExists`
conflict, never an idempotent no-op. -/
def resolveId (store : MessageStore) (accountId : String)
    (reqId : Option String) (genId : String) : Except CoreError String :=
  match reqId with
  | none => .ok genId
  | some i =>
    if (findMessage store accountId i).isSome then
      .error .MessageAlreadyExists
    else
      .ok i

/-- Modelled from the spec: the missing `messages.Service.Enqeue` (spec §4.3
steps 2, 4, 5): validate the payload, resolve the id against the store
scoped to the device owner's account, persist a new `Pending` record with
`createdAt = updatedAt = now`, and return the state snapshot. The store is
returned unchanged on every failure. -/
def enqueue (store : MessageStore) (device : Device) (req : MessageRequest)
    (opts : EnqueueOptions) (genId : String) (now : Nat) :
    MessageStore × Except CoreError MessageState :=
  match validate req opts.skipPhoneValidation with
  | .error e => (store, .error e)
  | .ok _ =>
    match resolveId store device.ownerAccountId req.id genId with
    | .error e => (store, .error e)
    | .ok msgId =>
      let record : MessageRecord :=
        { id := msgId
          ownerAccountId := device.ownerAccountId
          assignedDeviceId := device.id
          state := .Pending
          createdAt := now
          updatedAt := now }
      (record :: store, .ok ⟨msgId, .Pending, now, now⟩)

/-- Fiber's `c.QueryBool(name, default)`: the query flag's value when
present, the default otherwise. -/
def queryBool (q : Option Bool) (dflt : Bool) : Bool :=
  q.getD dflt

/-- Modelled from the spec: `slices.Random` / the Device Selector (spec
§4.1) — fails on an empty sequence, otherwise returns the entry at a
uniformly drawn index, embedded here as the explicit seed `k` reduced
modulo the length. -/
def slicesRandom (l : List Device) (k : Nat) : Except CoreError Device :=
  if h : l.length = 0 then
    .error .InternalFailure
  else
    .ok (l.get ⟨k % l.length, Nat.mod_lt _ (Nat.pos_of_ne_zero h)⟩)

/-- The handler `ThirdPartyController.post` (3rdparty.go:58-104), embedded
over the device list already resolved for the requesting account: read the
`skipPhoneValidation` query flag (default `false`), guard on an empty
device list, pick a random device, and call the enqueue service. The store
is returned unchanged on every failure path. -/
def post (store : MessageStore) (devices : List Device)
    (req : MessageRequest) (skipQuery : Option Bool) (k : Nat)
    (genId : String) (now : Nat) :
    MessageStore × Except CoreError MessageState :=
  if devices.length < 1 then
    (store, .error .NoDeviceAvailable)
  else
    match slicesRandom devices k with
    | .error _ => (store, .error .InternalFailure)
    | .ok device =>
      enqueue store device req ⟨queryBool skipQuery false⟩ genId now

/-- Snapshot of a stored record, as returned by the read path. -/
def MessageRecord.snapshot (m : MessageRecord) : MessageState :=
  ⟨m.id, m.state, m.createdAt, m.updatedAt⟩

/-- Modelled from the spec: the missing `messages.Service.GetState` (spec
§4.4): the lookup is scoped strictly to the account; an absent or
foreign-owned id fails with `MessageNotFound`. The handler `get`
(3rdparty.go:119-132) only maps this error to a 404. -/
def getState (store : MessageStore) (accountId msgId : String) :
    Except CoreError MessageState :=
  match findMessage store accountId msgId with
  | none => .error .MessageNotFound
  | some m => .ok m.snapshot

/-- Modelled from the spec: the missing `devices.Service.Get` with the
`WithID` filter (spec §6 Device Registry `getDevice`): resolve a device id
within the account's device set. -/
def getDeviceByID (registry : List Device) (accountId deviceId : String) :
    Option Device :=
  registry.find? (fun d => d.ownerAccountId == accountId && d.id == deviceId)

/-- The inbox export request body (`smsgateway.MessagesExportRequest`). -/
structure ExportRequest where
  deviceId : String
  since : Nat
  untilTime : Nat
deriving DecidableEq, Repr

/-- A job handed to the export collaborator (`messagesSvc.ExportInbox`
call): the resolved device and the time range. -/
structure ExportJob where
  device : Device
  since : Nat
  untilTime : Nat
deriving DecidableEq, Repr

/-- The handler `ThirdPartyController.postInboxExport` (3rdparty.go:148-168):
resolve the device within the account; on `ErrNotFound` fail with the
invalid-device error before any delegation; otherwise delegate exactly one
export job to the collaborator and accept. The second component lists the
jobs actually delegated. -/
def postInboxExport (registry : List Device) (accountId : String)
    (req : ExportRequest) : Except CoreError Unit × List ExportJob :=
  match getDeviceByID registry accountId req.deviceId with
  | none => (.error .InvalidDevice, [])
  | some device => (.ok (), [⟨device, req.since, req.untilTime⟩])

/-- Modelled from the spec: the legal transitions of the message state
machine (spec §4.2): `Pending → Processed → Sent → Delivered`, and
`Pending/Processed/Sent → Failed`. Nothing leaves a terminal state. -/
def allowedTransition : ProcessingState → ProcessingState → Bool
  | .Pending, .Processed => true
  | .Processed, .Sent => true
  | .Sent, .Delivered => true
  | .Pending, .Failed => true
  | .Processed, .Failed => true
  | .Sent, .Failed => true
  | _, _ => false

/-- Modelled from the spec: transition validation (spec §4.2): an illegal
move fails with `InvalidTransition` and leaves the record untouched; a
legal one updates the state and `updatedAt` only. -/
def applyTransition (m : MessageRecord) (target : ProcessingState)
    (now : Nat) : Except CoreError MessageRecord :=
  if allowedTransition m.state target then
    .ok { m with state := target, updatedAt := now }
  else
    .error .InvalidTransition

/-- C2: for an account whose resolved device set is empty, the enqueue
pipeline always fails with the no-device error and the Message Store is
returned unchanged — the guard at 3rdparty.go:72 returns before the
enqueue service is ever called. -/
theorem post_noDevice (store : MessageStore) (devices : List Device)
    (req : MessageRequest) (skipQuery : Option Bool) (k : Nat)
    (genId : String) (now : Nat) (h : devices.length < 1) :
    post store devices req skipQuery k genId now
      = (store, .error .NoDeviceAvailable) := by
  unfold post
  simp [h]

theorem post_noDevice_witness :
    post [] [] ⟨some "m1", "hi", ["+12345678"]⟩ none 0 "g" 1
      = ([], .error .NoDeviceAvailable) :=
  post_noDevice [] [] ⟨some "m1", "hi", ["+12345678"]⟩ none 0 "g" 1
    (by decide)

/-- C9: the empty-device-set guard runs before the duplicate-id check and
before phone validation: with zero devices the pipeline fails with the
no-device error even when the request id duplicates an existing record and
its recipients are malformed, and that error is neither
`MessageAlreadyExists` nor a `ValidationError`. -/
theorem post_noDevice_first (store : MessageStore) (devices : List Device)
    (req : MessageRequest) (skipQuery : Option Bool) (k : Nat)
    (genId : String) (now : Nat) (accountId dupId : String)
    (hdev : devices = [])
    (hdup : req.id = some dupId ∧
      (findMessage store accountId dupId).isSome = true)
    (hbad : ∃ s, validate req (queryBool skipQuery false)
      = .error (.ValidationError s)) :
    post store devices req skipQuery k genId now
      = (store, .error .NoDeviceAvailable) ∧
    (post store devices req skipQuery k genId now).2
      ≠ .error .MessageAlreadyExists ∧
    ∀ s, (post store devices req skipQuery k genId now).2
      ≠ .error (.ValidationError s) := by
  subst hdev
  have hmain : post store [] req skipQuery k genId now
      = (store, .error .NoDeviceAvailable) := by
    unfold post
    simp
  refine ⟨hmain, ?_, ?_⟩
  · rw [hmain]
    simp
  · intro s
    rw [hmain]
    simp

theorem post_noDevice_first_witness :
    post [⟨"m1", "a", "d1", .Pending, 0, 0⟩] [] ⟨some "m1", "hi", ["bad"]⟩
      none 0 "g" 1
      = ([⟨"m1", "a", "d1", .Pending, 0, 0⟩], .error .NoDeviceAvailable) :=
  (post_noDevice_first [⟨"m1", "a", "d1", .Pending, 0, 0⟩] []
    ⟨some "m1", "hi", ["bad"]⟩ none 0 "g" 1 "a" "m1" rfl
    ⟨rfl, by decide⟩ ⟨"invalid phone number", by rfl⟩).1

/-- C10: an absent `skipPhoneValidation` query flag defaults to `false`
(3rdparty.go:64, `c.QueryBool("skipPhoneValidation", false)`), so the
pipeline behaves identically to one with the flag explicitly `false`. -/
theorem post_skipQuery_default (store : MessageStore)
    (devices : List Device) (req : MessageRequest) (k : Nat)
    (genId : String) (now : Nat) :
    queryBool none false = false ∧
    post store devices req none k genId now
      = post store devices req (some false) k genId now :=
  ⟨rfl, rfl⟩

/-- C7: a message in a terminal state (`Delivered` or `Failed`) admits no
transition: every attempted move fails with `InvalidTransition`, leaving
the record unchanged. -/
theorem terminal_immutable (m : MessageRecord)
    (h : m.state.isTerminal = true) (target : ProcessingState) (now : Nat) :
    applyTransition m target now = .error .InvalidTransition := by
  unfold applyTransition
  rcases m with ⟨i, a, d, s, c, u⟩
  simp only at h ⊢
  cases s <;> simp [ProcessingState.isTerminal] at h <;>
    cases target <;> simp [allowedTransition]

theorem terminal_immutable_witness :
    applyTransition ⟨"m1", "a", "d1", .Delivered, 0, 0⟩ .Pending 5
      = .error .InvalidTransition :=
  terminal_immutable ⟨"m1", "a", "d1", .Delivered, 0, 0⟩ (by decide)
    .Pending 5

/-- C1: an enqueue whose request carries a client-supplied id for which a
record already exists under the same account fails with the
`MessageAlreadyExists` conflict — the store is unchanged so no existing
state is returned as a no-op, and the error is distinct from the
validation and no-device failures. The payload is assumed valid, since the
spec fixes no order between payload validation and the duplicate check. -/
theorem enqueue_duplicate_conflict (store : MessageStore) (device : Device)
    (req : MessageRequest) (opts : EnqueueOptions) (genId : String)
    (now : Nat) (dupId : String)
    (hid : req.id = some dupId)
    (hdup : (findMessage store device.ownerAccountId dupId).isSome = true)
    (hval : validate req opts.skipPhoneValidation = .ok ()) :
    enqueue store device req opts genId now
      = (store, .error .MessageAlreadyExists) ∧
    (∀ s, CoreError.MessageAlreadyExists ≠ CoreError.ValidationError s) ∧
    CoreError.MessageAlreadyExists ≠ CoreError.NoDeviceAvailable := by
  refine ⟨?_, fun s => by simp, by simp⟩
  unfold enqueue
  rw [hval]
  unfold resolveId
  rw [hid]
  simp [hdup]

theorem enqueue_duplicate_conflict_witness :
    enqueue [⟨"m1", "a", "d1", .Pending, 0, 0⟩] ⟨"d1", "a"⟩
      ⟨some "m1", "hi", ["+12345678"]⟩ ⟨false⟩ "g" 9
      = ([⟨"m1", "a", "d1", .Pending, 0, 0⟩], .error .MessageAlreadyExists) :=
  (enqueue_duplicate_conflict [⟨"m1", "a", "d1", .Pending, 0, 0⟩]
    ⟨"d1", "a"⟩ ⟨some "m1", "hi", ["+12345678"]⟩ ⟨false⟩ "g" 9 "m1"
    rfl (by decide) (by rfl)).1

/-- C3: the device selector never fails on a non-empty sequence and picks
the entry at the uniformly drawn index, and the draw is uniform with no
positional dependence: each position of the sequence is selected by
exactly one of the `l.length` equally likely seeds. -/
theorem selector_uniform (l : List Device) (h : l ≠ []) :
    (∀ k : Nat, ∃ hk : k % l.length < l.length,
        slicesRandom l k = .ok (l.get ⟨k % l.length, hk⟩)) ∧
    (∀ i : Fin l.length,
        (Finset.filter (fun k => k % l.length = i.val)
          (Finset.range l.length)).card = 1) := by
  have hn : l.length ≠ 0 := by
    simpa using h
  constructor
  · intro k
    refine ⟨Nat.mod_lt _ (Nat.pos_of_ne_zero hn), ?_⟩
    unfold slicesRandom
    rw [dif_neg hn]
  · intro i
    have hset : Finset.filter (fun k => k % l.length = i.val)
        (Finset.range l.length) = {i.val} := by
      ext k
      simp only [Finset.mem_filter, Finset.mem_range, Finset.mem_singleton]
      constructor
      · rintro ⟨hk, hmod⟩
        rw [Nat.mod_eq_of_lt hk] at hmod
        exact hmod
      · rintro rfl
        exact ⟨i.isLt, Nat.mod_eq_of_lt i.isLt⟩
    rw [hset, Finset.card_singleton]

theorem selector_uniform_witness :
    slicesRandom [⟨"d1", "a"⟩, ⟨"d2", "a"⟩] 3 = .ok ⟨"d2", "a"⟩ := by
  obtain ⟨hk, hsel⟩ :=
    (selector_uniform [⟨"d1", "a"⟩, ⟨"d2", "a"⟩] (by simp)).1 3
  simpa using hsel

/-- C4: an inbox-export request naming a device id that does not belong to
the requesting account fails with `InvalidDevice` and delegates no job to
the export collaborator — the handler returns at 3rdparty.go:157 before
the `ExportInbox` call. -/
theorem export_foreign_device (registry : List Device) (accountId : String)
    (req : ExportRequest)
    (hown : ∀ d ∈ registry,
      ¬(d.ownerAccountId = accountId ∧ d.id = req.deviceId)) :
    postInboxExport registry accountId req = (.error .InvalidDevice, []) := by
  have hfind : getDeviceByID registry accountId req.deviceId = none := by
    apply List.find?_eq_none.mpr
    intro d hd
    simp only [Bool.and_eq_true, beq_iff_eq, not_and]
    intro h1 h2
    exact hown d hd ⟨h1, h2⟩
  unfold postInboxExport
  rw [hfind]

theorem export_foreign_device_witness :
    postInboxExport [⟨"dB", "b"⟩] "a" ⟨"dB", 0, 1⟩
      = (.error .InvalidDevice, []) :=
  export_foreign_device [⟨"dB", "b"⟩] "a" ⟨"dB", 0, 1⟩ (by decide)

/-- C5: the state query is scoped strictly to the account: it fails with
`MessageNotFound` exactly when no record with that id exists under the
account (a foreign-owned id is indistinguishable from an absent one), and
any successful result is the snapshot of a record owned by the account. -/
theorem getState_scoped (store : MessageStore) (a i : String) :
    (getState store a i = .error .MessageNotFound ↔
      ∀ m ∈ store, ¬(m.ownerAccountId = a ∧ m.id = i)) ∧
    (∀ st, getState store a i = .ok st →
      ∃ m ∈ store, m.ownerAccountId = a ∧ m.id = i ∧ st = m.snapshot) := by
  unfold getState findMessage
  cases hf : store.find? (fun m => m.ownerAccountId == a && m.id == i) with
  | none =>
    have hnone := List.find?_eq_none.mp hf
    constructor
    · constructor
      · intro _ m hm hcon
        have := hnone m hm
        simp only [Bool.and_eq_true, beq_iff_eq] at this
        exact this ⟨hcon.1, hcon.2⟩
      · intro _
        rfl
    · intro st hst
      simp at hst
  | some m =>
    have hmem := List.mem_of_find?_eq_some hf
    have hp := List.find?_some hf
    simp only [Bool.and_eq_true, beq_iff_eq] at hp
    constructor
    · constructor
      · intro hcontra
        simp at hcontra
      · intro hall
        exact absurd ⟨hp.1, hp.2⟩ (hall m hmem)
    · intro st hst
      simp only [Except.ok.injEq] at hst
      exact ⟨m, hmem, hp.1, hp.2, hst.symm⟩

theorem getState_scoped_witness :
    getState [⟨"m1", "b", "d1", .Pending, 0, 0⟩] "a" "m1"
      = .error .MessageNotFound :=
  (getState_scoped [⟨"m1", "b", "d1", .Pending, 0, 0⟩] "a" "m1").1.mpr
    (by decide)

/-- Inversion of a successful enqueue: the validation and id resolution
went through, and the result is the freshly persisted `Pending` record
plus its snapshot. -/
theorem enqueue_ok_cases (store : MessageStore) (device : Device)
    (req : MessageRequest) (opts : EnqueueOptions) (genId : String)
    (now : Nat) (store' : MessageStore) (st : MessageState)
    (h : enqueue store device req opts genId now = (store', .ok st)) :
    ∃ msgId,
      resolveId store device.ownerAccountId req.id genId = .ok msgId ∧
      store' = ⟨msgId, device.ownerAccountId, device.id, .Pending, now, now⟩
        :: store ∧
      st = ⟨msgId, .Pending, now, now⟩ := by
  unfold enqueue at h
  split at h
  · simp at h
  · split at h
    · simp at h
    · rename_i msgId hr
      simp only [Prod.mk.injEq, Except.ok.injEq] at h
      exact ⟨msgId, hr, h.1.symm, h.2.symm⟩

/-- C6: every successful run of the enqueue pipeline persists exactly one
new record in state `Pending`, assigned to the device chosen by the
selector, with `createdAt = updatedAt = now`, and returns the state
snapshot (id, state, timestamps — the snapshot type carries no payload). -/
theorem post_success_snapshot (store : MessageStore) (devices : List Device)
    (req : MessageRequest) (skipQuery : Option Bool) (k : Nat)
    (genId : String) (now : Nat) (store' : MessageStore) (st : MessageState)
    (h : post store devices req skipQuery k genId now = (store', .ok st)) :
    ∃ device record,
      slicesRandom devices k = .ok device ∧
      store' = record :: store ∧
      record.state = .Pending ∧
      record.assignedDeviceId = device.id ∧
      record.ownerAccountId = device.ownerAccountId ∧
      record.createdAt = now ∧
      record.updatedAt = now ∧
      st = ⟨record.id, .Pending, now, now⟩ := by
  unfold post at h
  split at h
  · simp at h
  · split at h
    · simp at h
    · rename_i device heq
      obtain ⟨msgId, hr, hstore, hst⟩ :=
        enqueue_ok_cases _ _ _ _ _ _ _ _ h
      exact ⟨device,
        ⟨msgId, device.ownerAccountId, device.id, .Pending, now, now⟩,
        heq, hstore, rfl, rfl, rfl, rfl, rfl, hst⟩

theorem post_success_snapshot_witness :
    ∃ device record,
      slicesRandom [⟨"d1", "a"⟩] 0 = .ok device ∧
      [⟨"m1", "a", "d1", ProcessingState.Pending, 7, 7⟩]
        = record :: ([] : MessageStore) ∧
      record.state = .Pending ∧
      record.assignedDeviceId = device.id ∧
      record.ownerAccountId = device.ownerAccountId ∧
      record.createdAt = 7 ∧
      record.updatedAt = 7 ∧
      (⟨"m1", .Pending, 7, 7⟩ : MessageState) = ⟨record.id, .Pending, 7, 7⟩ :=
  post_success_snapshot [] [⟨"d1", "a"⟩] ⟨some "m1", "hi", ["+12345678"]⟩
    none 0 "g" 7 [⟨"m1", "a", "d1", .Pending, 7, 7⟩] ⟨"m1", .Pending, 7, 7⟩
    (by rfl)

/-- C8: payload validation failures are `ValidationError`, a variant
distinct from `MessageAlreadyExists` and `NoDeviceAvailable`; the
skip-validation option bypasses exactly the recipient-format (phone)
checks while the structural checks still apply; and a validation failure
propagates out of the enqueue service unchanged, leaving the store
untouched. -/
theorem validation_distinct_and_skip (req : MessageRequest) :
    (∀ s, CoreError.ValidationError s ≠ CoreError.MessageAlreadyExists ∧
          CoreError.ValidationError s ≠ CoreError.NoDeviceAvailable) ∧
    (validate req true = .ok () ↔ structuralOk req = true) ∧
    (validate req false = .ok () ↔
      (structuralOk req = true ∧ req.phoneNumbers.all isValidPhone = true)) ∧
    (∀ b e, validate req b = .error e → ∃ s, e = .ValidationError s) ∧
    (∀ (store : MessageStore) (device : Device) (opts : EnqueueOptions)
        (genId : String) (now : Nat) (e : CoreError),
      validate req opts.skipPhoneValidation = .error e →
      enqueue store device req opts genId now = (store, .error e)) := by
  refine ⟨fun s => ⟨by simp, by simp⟩, ?_, ?_, ?_, ?_⟩
  · unfold validate
    cases hs : structuralOk req <;> simp [hs]
  · unfold validate
    cases hs : structuralOk req <;>
      cases hp : req.phoneNumbers.all isValidPhone <;> simp [hs, hp]
  · intro b e h
    unfold validate at h
    split at h
    · injection h with h
      exact ⟨_, h.symm⟩
    · split at h
      · injection h with h
        exact ⟨_, h.symm⟩
      · simp at h
  · intro store device opts genId now e h
    unfold enqueue
    rw [h]

theorem validation_distinct_and_skip_witness :
    enqueue [] ⟨"d1", "a"⟩ ⟨none, "hi", ["notaphone"]⟩ ⟨false⟩ "g" 3
      = ([], .error (.ValidationError "invalid phone number")) :=
  (validation_distinct_and_skip ⟨none, "hi", ["notaphone"]⟩).2.2.2.2
    [] ⟨"d1", "a"⟩ ⟨false⟩ "g" 3 (.ValidationError "invalid phone number")
    (by rfl)

end SmsGateway
